import Mathlib

/-!
# Verification of the go-rtml real-time memory limiter core

This development embeds the core of the go-rtml package: the mirrored
garbage-collector controller state (`gcControllerState`), the pressure
decision `IsMemLimitReached`, and the diagnostic snapshot
`GetMemLimitRelatedStats`.

Machine integers are modelled as `Nat` (for Go's `uint64`, `atomic.Uint64`
and `sysMemStat`) and `Int` (for Go's `atomic.Int32`, `atomic.Int64` and
`int64`), with wrap-around made explicit (`% 2 ^ 64`) exactly where the Go
code performs unsigned 64-bit arithmetic or an `int64`-to-`uint64`
conversion.  Go's `float64` fields are carried as their 64-bit patterns
(`Nat`); the decision and snapshot never compute with them.

The runtime's heap-goal computation is reached through a go:linkname
declaration (`runtimeHeapGoal`); its body lives in the Go runtime, outside
this repository.  It is therefore kept abstract: every definition is
parameterised by a function `heapGoal : gcControllerState → Nat`, standing
for whatever value `runtime.(*gcControllerState).heapGoal` returns on the
current controller state.
-/

/-- Modulus of Go's 64-bit unsigned integers. -/
def u64Mod : Nat := 2 ^ 64

/-- Go's conversion `uint64(x)` of a signed 64-bit value `x`: the two's
complement bit pattern read as an unsigned number. -/
def uint64OfInt64 (x : Int) : Nat := (x % (2 ^ 64 : Int)).toNat

/-- Go's wrapping unsigned 64-bit subtraction `a - b` (both operands are
`uint64` values, hence below `2 ^ 64`). -/
def wrapSub64 (a b : Nat) : Nat := (a + 2 ^ 64 - b) % 2 ^ 64

/-- Mirror of the Go runtime struct `gcControllerState` as reproduced in the
package (field order and names follow the source; the trailing padding
`_ [64]byte` carries no data and is omitted).  `float64` fields are carried
as 64-bit patterns; `atomic` wrappers are modelled by their payload type. -/
structure gcControllerState where
  gcPercent : Int
  memoryLimit : Int
  heapMinimum : Nat
  runway : Nat
  consMark : Nat
  lastConsMark : Nat × Nat × Nat × Nat
  gcPercentHeapGoal : Nat
  sweepDistMinTrigger : Nat
  triggered : Nat
  lastHeapGoal : Nat
  heapLive : Nat
  heapScan : Nat
  lastHeapScan : Nat
  lastStackScan : Nat
  maxStackScan : Nat
  globalsScan : Nat
  heapMarked : Nat
  heapScanWork : Int
  stackScanWork : Int
  globalsScanWork : Int
  bgScanCredit : Int
  assistTime : Int
  dedicatedMarkTime : Int
  fractionalMarkTime : Int
  idleMarkTime : Int
  markStartTime : Int
  dedicatedMarkWorkersNeeded : Int
  idleMarkWorkers : Nat
  assistWorkPerByte : Nat
  assistBytesPerWork : Nat
  fractionalUtilizationGoal : Nat
  heapInUse : Nat
  heapReleased : Nat
  heapFree : Nat
  totalAlloc : Nat
  totalFree : Nat
  mappedReady : Nat
  test : Bool
deriving DecidableEq, Repr

/-- The controller state with every counter zero; concrete witness states
are built by overriding its fields. -/
def zeroGCState : gcControllerState where
  gcPercent := 0
  memoryLimit := 0
  heapMinimum := 0
  runway := 0
  consMark := 0
  lastConsMark := (0, 0, 0, 0)
  gcPercentHeapGoal := 0
  sweepDistMinTrigger := 0
  triggered := 0
  lastHeapGoal := 0
  heapLive := 0
  heapScan := 0
  lastHeapScan := 0
  lastStackScan := 0
  maxStackScan := 0
  globalsScan := 0
  heapMarked := 0
  heapScanWork := 0
  stackScanWork := 0
  globalsScanWork := 0
  bgScanCredit := 0
  assistTime := 0
  dedicatedMarkTime := 0
  fractionalMarkTime := 0
  idleMarkTime := 0
  markStartTime := 0
  dedicatedMarkWorkersNeeded := 0
  idleMarkWorkers := 0
  assistWorkPerByte := 0
  assistBytesPerWork := 0
  fractionalUtilizationGoal := 0
  heapInUse := 0
  heapReleased := 0
  heapFree := 0
  totalAlloc := 0
  totalFree := 0
  mappedReady := 0
  test := false

/-- Well-formedness of a controller state: every `uint64`-typed counter the
decision reads is in range, and the `int64` soft limit is in range. -/
def gcControllerState.WF (s : gcControllerState) : Prop :=
  s.mappedReady < 2 ^ 64 ∧ s.heapFree < 2 ^ 64 ∧ s.heapLive < 2 ^ 64 ∧
    s.totalAlloc < 2 ^ 64 ∧ s.totalFree < 2 ^ 64 ∧
    -(2 ^ 63 : Int) ≤ s.memoryLimit ∧ s.memoryLimit < 2 ^ 63

instance (s : gcControllerState) : Decidable s.WF := by
  unfold gcControllerState.WF; infer_instance

/-- Embedding of `IsMemLimitReached` (the pressure decision), parameterised
by the runtime's heap-goal function.  The three cascading checks follow the
source line by line: the `uint64(memoryLimit)` conversion, the wrapping
unsigned subtraction `mappedReady - heapFree`, and the final comparison of
`heapLive` against the runtime-computed heap goal. -/
def IsMemLimitReached (heapGoal : gcControllerState → Nat)
    (s : gcControllerState) : Bool :=
  let memoryLimit := s.memoryLimit
  let mappedReady := s.mappedReady
  if uint64OfInt64 memoryLimit > mappedReady then
    false
  else
    let heapFree := s.heapFree
    if uint64OfInt64 memoryLimit > wrapSub64 mappedReady heapFree then
      false
    else
      let hg := heapGoal s
      let heapLive := s.heapLive
      if heapLive < hg then
        false
      else
        true

/-- The pressure decision with the tier-3 heap-goal value supplied directly
as a number, used to state that the decision consumes exactly the value the
runtime's own heap-goal function returns. -/
def decisionWithGoal (goalValue : Nat) (s : gcControllerState) : Bool :=
  if uint64OfInt64 s.memoryLimit > s.mappedReady then
    false
  else if uint64OfInt64 s.memoryLimit > wrapSub64 s.mappedReady s.heapFree then
    false
  else if s.heapLive < goalValue then
    false
  else
    true

/-- Variant of the pressure decision that omits the tier-1 fast path and
starts directly at the tier-2 check. -/
def IsMemLimitReachedSkipTier1 (heapGoal : gcControllerState → Nat)
    (s : gcControllerState) : Bool :=
  if uint64OfInt64 s.memoryLimit > wrapSub64 s.mappedReady s.heapFree then
    false
  else if s.heapLive < heapGoal s then
    false
  else
    true

/-- Mirror of the `MemLimitRelatedStats` snapshot struct (all fields are
`uint64` in the source). -/
structure MemLimitRelatedStats where
  MemoryLimit : Nat
  HeapGoal : Nat
  HeapLive : Nat
  MappedReady : Nat
  HeapFree : Nat
  TotalAlloc : Nat
  TotalFree : Nat
deriving DecidableEq, Repr

/-- Embedding of `GetMemLimitRelatedStats`: probes each counter and bundles
the values, converting the `int64` soft limit with `uint64(...)` as the
source does. -/
def GetMemLimitRelatedStats (heapGoal : gcControllerState → Nat)
    (s : gcControllerState) : MemLimitRelatedStats :=
  let hg := heapGoal s
  { MemoryLimit := uint64OfInt64 s.memoryLimit
    HeapGoal := hg
    HeapLive := s.heapLive
    MappedReady := s.mappedReady
    HeapFree := s.heapFree
    TotalAlloc := s.totalAlloc
    TotalFree := s.totalFree }

/-- A single atomic load of a counter: it yields the counter's value and the
controller state it leaves behind, which for a pure read is the state it was
given. -/
def loadCounter (f : gcControllerState → Nat) (s : gcControllerState) :
    Nat × gcControllerState := (f s, s)

/-- A single atomic load of a signed counter. -/
def loadCounterInt (f : gcControllerState → Int) (s : gcControllerState) :
    Int × gcControllerState := (f s, s)

/-- State-threaded run of `IsMemLimitReached`: each atomic load is performed
in source order and threads the controller state through, so that the effect
of a call on the counters is part of the result. -/
def IsMemLimitReachedRun (heapGoal : gcControllerState → Nat)
    (s0 : gcControllerState) : Bool × gcControllerState :=
  let (memoryLimit, s1) := loadCounterInt (fun s => s.memoryLimit) s0
  let (mappedReady, s2) := loadCounter (fun s => s.mappedReady) s1
  if uint64OfInt64 memoryLimit > mappedReady then
    (false, s2)
  else
    let (heapFree, s3) := loadCounter (fun s => s.heapFree) s2
    if uint64OfInt64 memoryLimit > wrapSub64 mappedReady heapFree then
      (false, s3)
    else
      let (hg, s4) := (heapGoal s3, s3)
      let (heapLive, s5) := loadCounter (fun s => s.heapLive) s4
      if heapLive < hg then
        (false, s5)
      else
        (true, s5)

/-- State-threaded run of `GetMemLimitRelatedStats`: the heap goal and the
six counters are probed one by one in source order, threading the controller
state. -/
def GetMemLimitRelatedStatsRun (heapGoal : gcControllerState → Nat)
    (s0 : gcControllerState) : MemLimitRelatedStats × gcControllerState :=
  let (hg, s1) := (heapGoal s0, s0)
  let (memoryLimit, s2) := loadCounterInt (fun s => s.memoryLimit) s1
  let (heapLive, s3) := loadCounter (fun s => s.heapLive) s2
  let (mappedReady, s4) := loadCounter (fun s => s.mappedReady) s3
  let (heapFree, s5) := loadCounter (fun s => s.heapFree) s4
  let (totalAlloc, s6) := loadCounter (fun s => s.totalAlloc) s5
  let (totalFree, s7) := loadCounter (fun s => s.totalFree) s6
  ({ MemoryLimit := uint64OfInt64 memoryLimit
     HeapGoal := hg
     HeapLive := heapLive
     MappedReady := mappedReady
     HeapFree := heapFree
     TotalAlloc := totalAlloc
     TotalFree := totalFree }, s7)

/-- C1: the pressure decision returns true iff all three cascading checks
fail — `mappedReady` is not below the (unsigned-read) soft limit, the
free-credited difference `mappedReady - heapFree` is not below it either,
and `heapLive` has reached the heap goal; it returns false exactly when one
of the three holds. -/
theorem isMemLimitReached_iff (heapGoal : gcControllerState → Nat)
    (s : gcControllerState) :
    (IsMemLimitReached heapGoal s = true ↔
      ¬ s.mappedReady < uint64OfInt64 s.memoryLimit ∧
      ¬ wrapSub64 s.mappedReady s.heapFree < uint64OfInt64 s.memoryLimit ∧
      ¬ s.heapLive < heapGoal s) ∧
    (IsMemLimitReached heapGoal s = false ↔
      s.mappedReady < uint64OfInt64 s.memoryLimit ∨
      wrapSub64 s.mappedReady s.heapFree < uint64OfInt64 s.memoryLimit ∨
      s.heapLive < heapGoal s) := by
  unfold IsMemLimitReached
  dsimp only
  by_cases h1 : uint64OfInt64 s.memoryLimit > s.mappedReady <;>
    by_cases h2 : uint64OfInt64 s.memoryLimit > wrapSub64 s.mappedReady s.heapFree <;>
      by_cases h3 : s.heapLive < heapGoal s <;>
        simp [h1, h2, h3]

/-- The wrapping subtraction agrees with truncated subtraction when no wrap
occurs. -/
theorem wrapSub64_of_le {a b : Nat} (hba : b ≤ a) (ha : a < 2 ^ 64) :
    wrapSub64 a b = a - b := by
  unfold wrapSub64
  omega

/-- The unsigned reading of a signed 64-bit value is always below the
64-bit modulus. -/
theorem uint64OfInt64_lt (x : Int) : uint64OfInt64 x < 2 ^ 64 := by
  unfold uint64OfInt64
  have h1 : 0 ≤ x % (2 ^ 64 : Int) := Int.emod_nonneg x (by norm_num)
  have h2 : x % (2 ^ 64 : Int) < 2 ^ 64 := Int.emod_lt_of_pos x (by norm_num)
  omega

/-- The state-threaded pressure decision leaves the controller state it was
given unchanged. -/
theorem isMemLimitReachedRun_snd (heapGoal : gcControllerState → Nat)
    (s : gcControllerState) : (IsMemLimitReachedRun heapGoal s).2 = s := by
  unfold IsMemLimitReachedRun loadCounter loadCounterInt
  dsimp only
  split
  · rfl
  · split
    · rfl
    · split <;> rfl

/-- The state-threaded snapshot leaves the controller state it was given
unchanged. -/
theorem getMemLimitRelatedStatsRun_snd (heapGoal : gcControllerState → Nat)
    (s : gcControllerState) : (GetMemLimitRelatedStatsRun heapGoal s).2 = s :=
  rfl

/-- The state-threaded pressure decision computes the same boolean as the
plain embedding. -/
theorem isMemLimitReachedRun_fst (heapGoal : gcControllerState → Nat)
    (s : gcControllerState) :
    (IsMemLimitReachedRun heapGoal s).1 = IsMemLimitReached heapGoal s := by
  unfold IsMemLimitReachedRun IsMemLimitReached loadCounter loadCounterInt
  dsimp only
  split
  · rfl
  · split
    · rfl
    · split <;> rfl

/-- The state-threaded snapshot computes the same record as the plain
embedding. -/
theorem getMemLimitRelatedStatsRun_fst (heapGoal : gcControllerState → Nat)
    (s : gcControllerState) :
    (GetMemLimitRelatedStatsRun heapGoal s).1 =
      GetMemLimitRelatedStats heapGoal s :=
  rfl

/-- C2: the heap-goal value consumed by the pressure decision's third tier
and the one reported by the stats snapshot are both exactly the value the
runtime's own heap-goal function returns on the same controller state: the
decision equals the decision with that value supplied explicitly, and the
snapshot's HeapGoal field is that value. -/
theorem heapGoal_agrees_with_runtime (heapGoal : gcControllerState → Nat)
    (s : gcControllerState) :
    IsMemLimitReached heapGoal s = decisionWithGoal (heapGoal s) s ∧
    (GetMemLimitRelatedStats heapGoal s).HeapGoal = heapGoal s :=
  ⟨rfl, rfl⟩

/-- C3: fast-path soundness — whenever mapped-ready is strictly below the
unsigned reading of the soft limit, the pressure decision returns false, for
every heap-goal function and every value of the remaining counters. -/
theorem isMemLimitReached_fastPath (heapGoal : gcControllerState → Nat)
    (s : gcControllerState)
    (h : s.mappedReady < uint64OfInt64 s.memoryLimit) :
    IsMemLimitReached heapGoal s = false := by
  unfold IsMemLimitReached
  dsimp only
  rw [if_pos h]

theorem isMemLimitReached_fastPath_witness :
    let s := { zeroGCState with
      memoryLimit := 100, mappedReady := 5,
      heapFree := 999999, heapLive := 999999 }
    s.mappedReady < uint64OfInt64 s.memoryLimit ∧
      IsMemLimitReached (fun _ => 0) s = false :=
  ⟨by decide, isMemLimitReached_fastPath (fun _ => 0) _ (by decide)⟩

/-- C4: the snapshot's seven fields equal exactly the corresponding counter
values of the probed state — the unsigned reading of the soft limit, the
computed heap goal, heap live, mapped-ready, heap free, total allocated and
total freed. -/
theorem getMemLimitRelatedStats_fields (heapGoal : gcControllerState → Nat)
    (s : gcControllerState) :
    (GetMemLimitRelatedStats heapGoal s).MemoryLimit =
        uint64OfInt64 s.memoryLimit ∧
    (GetMemLimitRelatedStats heapGoal s).HeapGoal = heapGoal s ∧
    (GetMemLimitRelatedStats heapGoal s).HeapLive = s.heapLive ∧
    (GetMemLimitRelatedStats heapGoal s).MappedReady = s.mappedReady ∧
    (GetMemLimitRelatedStats heapGoal s).HeapFree = s.heapFree ∧
    (GetMemLimitRelatedStats heapGoal s).TotalAlloc = s.totalAlloc ∧
    (GetMemLimitRelatedStats heapGoal s).TotalFree = s.totalFree :=
  ⟨rfl, rfl, rfl, rfl, rfl, rfl, rfl⟩

/-- C5: both public operations are total — on every well-formed counter
state (including states where heap free exceeds mapped-ready and states with
a zero soft limit) the decision yields a boolean and the snapshot's fields
are all in unsigned 64-bit range; nothing fails. -/
theorem memLimitOps_total (heapGoal : gcControllerState → Nat)
    (s : gcControllerState) (hWF : s.WF) (hhg : heapGoal s < 2 ^ 64) :
    (IsMemLimitReached heapGoal s = true ∨
      IsMemLimitReached heapGoal s = false) ∧
    (GetMemLimitRelatedStats heapGoal s).MemoryLimit < 2 ^ 64 ∧
    (GetMemLimitRelatedStats heapGoal s).HeapGoal < 2 ^ 64 ∧
    (GetMemLimitRelatedStats heapGoal s).HeapLive < 2 ^ 64 ∧
    (GetMemLimitRelatedStats heapGoal s).MappedReady < 2 ^ 64 ∧
    (GetMemLimitRelatedStats heapGoal s).HeapFree < 2 ^ 64 ∧
    (GetMemLimitRelatedStats heapGoal s).TotalAlloc < 2 ^ 64 ∧
    (GetMemLimitRelatedStats heapGoal s).TotalFree < 2 ^ 64 := by
  obtain ⟨hmr, hhf, hhl, hta, htf, hml1, hml2⟩ := hWF
  refine ⟨?_, ?_, hhg, hhl, hmr, hhf, hta, htf⟩
  · cases IsMemLimitReached heapGoal s
    · exact Or.inr rfl
    · exact Or.inl rfl
  · exact uint64OfInt64_lt s.memoryLimit

theorem memLimitOps_total_witness :
    let s := { zeroGCState with
      mappedReady := 5, heapFree := 7, heapLive := 3,
      totalAlloc := 10, totalFree := 7 }
    s.WF ∧ (4 : Nat) < 2 ^ 64 ∧
      ((IsMemLimitReached (fun _ => 4) s = true ∨
          IsMemLimitReached (fun _ => 4) s = false) ∧
        (GetMemLimitRelatedStats (fun _ => 4) s).MemoryLimit < 2 ^ 64 ∧
        (GetMemLimitRelatedStats (fun _ => 4) s).HeapGoal < 2 ^ 64 ∧
        (GetMemLimitRelatedStats (fun _ => 4) s).HeapLive < 2 ^ 64 ∧
        (GetMemLimitRelatedStats (fun _ => 4) s).MappedReady < 2 ^ 64 ∧
        (GetMemLimitRelatedStats (fun _ => 4) s).HeapFree < 2 ^ 64 ∧
        (GetMemLimitRelatedStats (fun _ => 4) s).TotalAlloc < 2 ^ 64 ∧
        (GetMemLimitRelatedStats (fun _ => 4) s).TotalFree < 2 ^ 64) :=
  ⟨by decide, by decide, memLimitOps_total (fun _ => 4) _ (by decide) (by decide)⟩

/-- C6: both public operations are pure readers — running either one with
every atomic load threaded through the controller state returns the state
exactly as it was given, so no counter or pacing parameter is mutated. -/
theorem memLimitOps_frame (heapGoal : gcControllerState → Nat)
    (s : gcControllerState) :
    (IsMemLimitReachedRun heapGoal s).2 = s ∧
    (GetMemLimitRelatedStatsRun heapGoal s).2 = s :=
  ⟨isMemLimitReachedRun_snd heapGoal s,
   getMemLimitRelatedStatsRun_snd heapGoal s⟩

/-- C7: both public operations are deterministic pure functions of the
counters — on equal controller states they return equal results, and a
second consecutive invocation (run on the state the first one left behind)
returns the same result as the first, so nothing is cached or carried
over. -/
theorem memLimitOps_deterministic (heapGoal : gcControllerState → Nat)
    (s1 s2 : gcControllerState) (h : s1 = s2) :
    IsMemLimitReached heapGoal s1 = IsMemLimitReached heapGoal s2 ∧
    GetMemLimitRelatedStats heapGoal s1 = GetMemLimitRelatedStats heapGoal s2 ∧
    (IsMemLimitReachedRun heapGoal (IsMemLimitReachedRun heapGoal s1).2).1 =
      (IsMemLimitReachedRun heapGoal s1).1 ∧
    (GetMemLimitRelatedStatsRun heapGoal
        (GetMemLimitRelatedStatsRun heapGoal s1).2).1 =
      (GetMemLimitRelatedStatsRun heapGoal s1).1 := by
  subst h
  refine ⟨rfl, rfl, ?_, ?_⟩
  · rw [isMemLimitReachedRun_snd]
  · rw [getMemLimitRelatedStatsRun_snd]

theorem memLimitOps_deterministic_witness :
    let s := { zeroGCState with
      memoryLimit := 64, mappedReady := 80, heapFree := 8, heapLive := 70 }
    s = s ∧
      (IsMemLimitReached (fun _ => 66) s = IsMemLimitReached (fun _ => 66) s ∧
        GetMemLimitRelatedStats (fun _ => 66) s =
          GetMemLimitRelatedStats (fun _ => 66) s ∧
        (IsMemLimitReachedRun (fun _ => 66)
            (IsMemLimitReachedRun (fun _ => 66) s).2).1 =
          (IsMemLimitReachedRun (fun _ => 66) s).1 ∧
        (GetMemLimitRelatedStatsRun (fun _ => 66)
            (GetMemLimitRelatedStatsRun (fun _ => 66) s).2).1 =
          (GetMemLimitRelatedStatsRun (fun _ => 66) s).1) :=
  ⟨rfl, memLimitOps_deterministic (fun _ => 66) _ _ rfl⟩

/-- C8: with a zero soft limit the first two tiers can never return false —
an unsigned value is never strictly below zero — so the decision neither
fails nor special-cases the limit and its result is exactly whether heap
live has reached the heap goal. -/
theorem isMemLimitReached_zeroLimit (heapGoal : gcControllerState → Nat)
    (s : gcControllerState) (h : s.memoryLimit = 0) :
    ¬ s.mappedReady < uint64OfInt64 s.memoryLimit ∧
    ¬ wrapSub64 s.mappedReady s.heapFree < uint64OfInt64 s.memoryLimit ∧
    IsMemLimitReached heapGoal s = decide (heapGoal s ≤ s.heapLive) := by
  have hz : uint64OfInt64 s.memoryLimit = 0 := by
    rw [h]; rfl
  refine ⟨by omega, by omega, ?_⟩
  unfold IsMemLimitReached
  dsimp only
  rw [hz]
  rw [if_neg (by omega), if_neg (by omega)]
  by_cases h3 : s.heapLive < heapGoal s <;> simp [h3]
  omega

theorem isMemLimitReached_zeroLimit_witness :
    let s := { zeroGCState with
      mappedReady := 20, heapFree := 2, heapLive := 10 }
    s.memoryLimit = 0 ∧
      (¬ s.mappedReady < uint64OfInt64 s.memoryLimit ∧
        ¬ wrapSub64 s.mappedReady s.heapFree < uint64OfInt64 s.memoryLimit ∧
        IsMemLimitReached (fun _ => 3) s = decide ((3 : Nat) ≤ s.heapLive)) :=
  ⟨rfl, isMemLimitReached_zeroLimit (fun _ => 3) _ rfl⟩

/-- C9: under the documented invariant that heap free never exceeds
mapped-ready (and with mapped-ready in unsigned 64-bit range), the tier-1
fast path is semantically redundant: the variant of the decision that starts
at the tier-2 check returns the same boolean, because tier-1 true implies
tier-2 true. -/
theorem tier1_redundant (heapGoal : gcControllerState → Nat)
    (s : gcControllerState) (hfree : s.heapFree ≤ s.mappedReady)
    (hmr : s.mappedReady < 2 ^ 64) :
    IsMemLimitReachedSkipTier1 heapGoal s = IsMemLimitReached heapGoal s := by
  have hsub : wrapSub64 s.mappedReady s.heapFree =
      s.mappedReady - s.heapFree := wrapSub64_of_le hfree hmr
  unfold IsMemLimitReachedSkipTier1 IsMemLimitReached
  dsimp only
  by_cases h1 : uint64OfInt64 s.memoryLimit > s.mappedReady
  · have h2 : uint64OfInt64 s.memoryLimit >
        wrapSub64 s.mappedReady s.heapFree := by
      rw [hsub]; omega
    rw [if_pos h1, if_pos h2]
  · rw [if_neg h1]

theorem tier1_redundant_witness :
    let s := { zeroGCState with
      memoryLimit := 100, mappedReady := 50, heapFree := 20, heapLive := 30 }
    s.heapFree ≤ s.mappedReady ∧ s.mappedReady < 2 ^ 64 ∧
      IsMemLimitReachedSkipTier1 (fun _ => 25) s =
        IsMemLimitReached (fun _ => 25) s :=
  ⟨by decide, by decide, tier1_redundant (fun _ => 25) _ (by decide) (by decide)⟩

/-- Concrete controller state refuting the claim that the wrapped tier-2
difference is always at least `2 ^ 63` when heap free exceeds mapped-ready:
here mapped-ready is 0 and heap free is `2 ^ 64 - 1`, so the wrapped
difference is 1. -/
def c10State : gcControllerState :=
  { zeroGCState with mappedReady := 0, heapFree := 2 ^ 64 - 1 }

theorem tier2_wrap_not_always_large :
    c10State.mappedReady < c10State.heapFree ∧
      wrapSub64 c10State.mappedReady c10State.heapFree < 2 ^ 63 := by
  constructor
  · decide
  · show (0 + 2 ^ 64 - (2 ^ 64 - 1)) % 2 ^ 64 < 2 ^ 63
    norm_num

/-- C10 (amended): the tier-2 subtraction wraps; whenever a skewed read
yields heap free strictly above mapped-ready (both in unsigned 64-bit
range), the wrapped difference is strictly greater than mapped-ready — and
at least `2 ^ 63` whenever the excess is at most `2 ^ 63` — so once tier 1
has fallen through (soft limit at most mapped-ready) tier 2 never returns
false and the decision falls through to the heap-live versus heap-goal
comparison instead of failing. -/
theorem tier2_wrap_falls_through (heapGoal : gcControllerState → Nat)
    (s : gcControllerState) (hlt : s.mappedReady < s.heapFree)
    (hf : s.heapFree < 2 ^ 64)
    (hfall : uint64OfInt64 s.memoryLimit ≤ s.mappedReady) :
    s.mappedReady < wrapSub64 s.mappedReady s.heapFree ∧
    (s.heapFree - s.mappedReady ≤ 2 ^ 63 →
      2 ^ 63 ≤ wrapSub64 s.mappedReady s.heapFree) ∧
    IsMemLimitReached heapGoal s = decide (heapGoal s ≤ s.heapLive) := by
  have hw : wrapSub64 s.mappedReady s.heapFree =
      s.mappedReady + 2 ^ 64 - s.heapFree := by
    unfold wrapSub64; omega
  refine ⟨by omega, by omega, ?_⟩
  unfold IsMemLimitReached
  dsimp only
  rw [if_neg (by omega), if_neg (by omega)]
  by_cases h3 : s.heapLive < heapGoal s <;> simp [h3]
  omega

theorem tier2_wrap_falls_through_witness :
    let s := { zeroGCState with
      memoryLimit := 3, mappedReady := 5, heapFree := 8, heapLive := 10 }
    s.mappedReady < s.heapFree ∧ s.heapFree < 2 ^ 64 ∧
      uint64OfInt64 s.memoryLimit ≤ s.mappedReady ∧
      (s.mappedReady < wrapSub64 s.mappedReady s.heapFree ∧
        (s.heapFree - s.mappedReady ≤ 2 ^ 63 →
          2 ^ 63 ≤ wrapSub64 s.mappedReady s.heapFree) ∧
        IsMemLimitReached (fun _ => 7) s = decide ((7 : Nat) ≤ s.heapLive)) :=
  ⟨by decide, by decide, by decide,
   tier2_wrap_falls_through (fun _ => 7) _ (by decide) (by decide) (by decide)⟩
